import Mathlib

/-!
Shallow embedding of the deployment-gate logic of
`src/ml/automl/tables/xai/automl_tables_xai.ipynb`.

The notebook defines a Kubeflow lightweight component `eval_metrics`, whose
core is the nested Python function `regression_threshold_check`:

  def regression_threshold_check(metrics_info):
    for k, v in thresholds_dict.items():
      if k in ['root_mean_squared_error', 'mae']:
        if metrics_info[k][-1] > v:
          return ('False', )
    return ('deploy', )

`eval_metrics(metrics, thresholds)` parses the two JSON documents and returns
`regression_threshold_check(metrics_dict)`.  The embedding works on the
deserialized documents (Python dicts preserve insertion order, so a dict is a
key-ordered association list) and models Python runtime failures (`KeyError`
from `metrics_info[k]`, `IndexError` from `[-1]` on an empty list, `TypeError`
from `>` on a number and a string) with an explicit error type.  Logging calls
only write to a logger and never change the returned value, so they are
dropped.
-/

namespace AutomlTablesXai

/-- A JSON scalar as Python sees it here: a number or a string.  Observation
values and threshold values in the two input documents are such scalars. -/
inductive PyVal where
  | num : ℚ → PyVal
  | str : String → PyVal
deriving DecidableEq, Repr

/-- The Python runtime errors `eval_metrics` can raise after deserialization:
`KeyError` (a checked metric absent from the report), `IndexError` (`[-1]` on
an empty observation list), `TypeError` (`>` between a number and a string). -/
inductive PyErr where
  | keyError : String → PyErr
  | indexError : PyErr
  | typeError : PyErr
deriving DecidableEq, Repr

/-- Python `a > b` on two scalars: defined on two numbers or two strings,
`TypeError` on a mixed pair (Python 3 semantics). -/
def pyGT : PyVal → PyVal → Except PyErr Bool
  | .num a, .num b => .ok (decide (b < a))
  | .str a, .str b => .ok (decide (b < a))
  | .num _, .str _ => .error .typeError
  | .str _, .num _ => .error .typeError

/-- The deserialized metrics document: metric name to ordered observations. -/
abbrev MetricReport := List (String × List PyVal)

/-- The deserialized thresholds document: metric name to threshold value,
iterated in declared (insertion) order. -/
abbrev ThresholdSpec := List (String × PyVal)

/-- The literal list `['root_mean_squared_error', 'mae']` from the source:
the only metric names the loop body compares. -/
def checkedMetrics : List String := ["root_mean_squared_error", "mae"]

/-- One loop iteration of `regression_threshold_check` for entry `(k, v)`:
`ok true` when `k in ['root_mean_squared_error', 'mae']` and
`metrics_info[k][-1] > v` (the iteration returns `('False',)`), `ok false`
when the iteration falls through to the next entry, `error` when the Python
expression `metrics_info[k][-1] > v` raises. -/
def check_entry (metrics_info : MetricReport) (k : String) (v : PyVal) :
    Except PyErr Bool :=
  if checkedMetrics.contains k then
    match List.lookup k metrics_info with
    | none => .error (.keyError k)
    | some obs =>
      match obs.getLast? with
      | none => .error .indexError
      | some fin => pyGT fin v
  else .ok false

/-- `regression_threshold_check(metrics_info)` with its closure capture
`thresholds_dict` made an explicit argument: fold over the threshold entries
in declared order, return `"False"` at the first comparison that fires,
`"deploy"` when the loop completes. -/
def regression_threshold_check (metrics_info : MetricReport) :
    ThresholdSpec → Except PyErr String
  | [] => .ok "deploy"
  | (k, v) :: rest =>
    match check_entry metrics_info k v with
    | .error e => .error e
    | .ok true => .ok "False"
    | .ok false => regression_threshold_check metrics_info rest

/-- `eval_metrics` after JSON deserialization of its two string inputs: it
returns `regression_threshold_check(metrics_dict)` with `thresholds_dict` in
scope. -/
def eval_metrics (metrics_dict : MetricReport)
    (thresholds_dict : ThresholdSpec) : Except PyErr String :=
  regression_threshold_check metrics_dict thresholds_dict

/-- The condition under which a single spec entry makes the source return
`('False',)`: the name is in the checked list and the final observation
exceeds the threshold. -/
def entryViolates (metrics_info : MetricReport) (k : String) (v : PyVal) :
    Bool :=
  match check_entry metrics_info k v with
  | .ok true => true
  | _ => false

/-- Keep only the last observation of each metric (an empty list stays
empty), used to state that the gate reads nothing but final values. -/
def lastOnly (xs : List PyVal) : List PyVal :=
  match xs.getLast? with
  | some a => [a]
  | none => []

/-- Apply `lastOnly` to every metric of a report. -/
def reportLastOnly (r : MetricReport) : MetricReport :=
  r.map (fun p => (p.1, lastOnly p.2))


lemma check_entry_unchecked (r : MetricReport) (k : String) (v : PyVal)
    (h : checkedMetrics.contains k = false) : check_entry r k v = .ok false := by
  unfold check_entry
  rw [h]
  simp

lemma entryViolates_iff (r : MetricReport) (k : String) (v : PyVal) :
    entryViolates r k v = true ↔ check_entry r k v = .ok true := by
  unfold entryViolates
  cases h : check_entry r k v with
  | error e => simp
  | ok b => cases b <;> simp

lemma rtc_cons (r : MetricReport) (k : String) (v : PyVal)
    (rest : ThresholdSpec) :
    regression_threshold_check r ((k, v) :: rest) =
      match check_entry r k v with
      | .error e => .error e
      | .ok true => .ok "False"
      | .ok false => regression_threshold_check r rest := rfl

lemma rtc_tokens (r : MetricReport) :
    ∀ (s : ThresholdSpec) (d : String),
      regression_threshold_check r s = .ok d → d = "deploy" ∨ d = "False" := by
  intro s
  induction s with
  | nil =>
    intro d h
    unfold regression_threshold_check at h
    exact Or.inl (Except.ok.inj h).symm
  | cons p rest ih =>
    intro d h
    obtain ⟨k, v⟩ := p
    unfold regression_threshold_check at h
    cases hc : check_entry r k v with
    | error e => rw [hc] at h; cases h
    | ok b =>
      cases b
      · rw [hc] at h; exact ih d h
      · rw [hc] at h; right; exact (Except.ok.inj h).symm

lemma rtc_false_iff (r : MetricReport) :
    ∀ (s : ThresholdSpec) (d : String),
      regression_threshold_check r s = .ok d →
      (d = "False" ↔ ∃ p ∈ s, entryViolates r p.1 p.2 = true) := by
  intro s
  induction s with
  | nil =>
    intro d h
    unfold regression_threshold_check at h
    have hd : d = "deploy" := (Except.ok.inj h).symm
    subst hd
    simp
  | cons p rest ih =>
    intro d h
    obtain ⟨k, v⟩ := p
    unfold regression_threshold_check at h
    cases hc : check_entry r k v with
    | error e => rw [hc] at h; cases h
    | ok b =>
      cases b
      · rw [hc] at h
        have hv : entryViolates r k v = false := by
          unfold entryViolates; rw [hc]
        rw [ih d h]
        simp [hv]
      · rw [hc] at h
        have hd : d = "False" := (Except.ok.inj h).symm
        subst hd
        have hv : entryViolates r k v = true := (entryViolates_iff r k v).mpr hc
        simp
        exact Or.inl hv

lemma rtc_append_deploy (r : MetricReport) :
    ∀ (l1 l2 : ThresholdSpec),
      regression_threshold_check r l1 = .ok "deploy" →
      regression_threshold_check r (l1 ++ l2) = regression_threshold_check r l2 := by
  intro l1
  induction l1 with
  | nil => intro l2 _; simp
  | cons p rest ih =>
    intro l2 h
    obtain ⟨k, v⟩ := p
    cases hc : check_entry r k v with
    | error e =>
      rw [rtc_cons, hc] at h
      exact Except.noConfusion h
    | ok b =>
      cases b with
      | false =>
        rw [rtc_cons, hc] at h
        rw [List.cons_append, rtc_cons, hc]
        exact ih l2 h
      | true =>
        rw [rtc_cons, hc] at h
        exact absurd (Except.ok.inj h) (by decide)

lemma rtc_filter_checked (r : MetricReport) :
    ∀ s : ThresholdSpec,
      regression_threshold_check r s =
      regression_threshold_check r
        (s.filter (fun p => checkedMetrics.contains p.1)) := by
  intro s
  induction s with
  | nil => rfl
  | cons p rest ih =>
    obtain ⟨k, v⟩ := p
    by_cases hk : checkedMetrics.contains k = true
    · have hk2 : k ∈ checkedMetrics := by simpa using hk
      have hf : ((k, v) :: rest).filter (fun p => checkedMetrics.contains p.1) =
          (k, v) :: rest.filter (fun p => checkedMetrics.contains p.1) := by
        simp [List.filter_cons, hk2]
      rw [hf, rtc_cons, rtc_cons]
      cases check_entry r k v with
      | error e => rfl
      | ok b =>
        cases b with
        | true => rfl
        | false => exact ih
    · have hk2 : checkedMetrics.contains k = false := by
        simpa using hk
      have hk3 : k ∉ checkedMetrics := by simpa using hk
      have hf : ((k, v) :: rest).filter (fun p => checkedMetrics.contains p.1) =
          rest.filter (fun p => checkedMetrics.contains p.1) := by
        simp [List.filter_cons, hk3]
      rw [hf, rtc_cons, check_entry_unchecked r k v hk2]
      exact ih

lemma getLast_lastOnly (xs : List PyVal) :
    (lastOnly xs).getLast? = xs.getLast? := by
  unfold lastOnly
  cases h : xs.getLast? with
  | none => rfl
  | some a => rfl

lemma lookup_reportLastOnly (k : String) :
    ∀ r : MetricReport,
      List.lookup k (reportLastOnly r) = (List.lookup k r).map lastOnly := by
  intro r
  induction r with
  | nil => rfl
  | cons p rest ih =>
    obtain ⟨k2, obs⟩ := p
    show List.lookup k ((k2, lastOnly obs) :: reportLastOnly rest) = _
    cases h : (k == k2) with
    | true => simp [List.lookup, h]
    | false =>
      simp [List.lookup, h]
      exact ih

lemma check_entry_lastOnly (r : MetricReport) (k : String) (v : PyVal) :
    check_entry (reportLastOnly r) k v = check_entry r k v := by
  by_cases hk : checkedMetrics.contains k = true
  · unfold check_entry
    rw [lookup_reportLastOnly]
    cases h : List.lookup k r with
    | none => rfl
    | some obs =>
      simp only [hk, if_true]
      have hmap : Option.map lastOnly (some obs) = some (lastOnly obs) := rfl
      rw [hmap]
      show (match (lastOnly obs).getLast? with
        | none => Except.error PyErr.indexError
        | some fin => pyGT fin v) = _
      rw [getLast_lastOnly]
  · have hk2 : checkedMetrics.contains k = false := by simpa using hk
    rw [check_entry_unchecked _ _ _ hk2, check_entry_unchecked _ _ _ hk2]

lemma rtc_lastOnly (r : MetricReport) :
    ∀ s : ThresholdSpec,
      regression_threshold_check (reportLastOnly r) s =
      regression_threshold_check r s := by
  intro s
  induction s with
  | nil => rfl
  | cons p rest ih =>
    obtain ⟨k, v⟩ := p
    rw [rtc_cons, rtc_cons, check_entry_lastOnly]
    cases check_entry r k v with
    | error e => rfl
    | ok b =>
      cases b with
      | true => rfl
      | false => exact ih

lemma rtc_agree (r1 r2 : MetricReport) :
    ∀ s : ThresholdSpec,
      (∀ p ∈ s, List.lookup p.1 r1 = List.lookup p.1 r2) →
      regression_threshold_check r1 s = regression_threshold_check r2 s := by
  intro s
  induction s with
  | nil => intro _; rfl
  | cons p rest ih =>
    intro h
    obtain ⟨k, v⟩ := p
    have hk : List.lookup k r1 = List.lookup k r2 :=
      h (k, v) (List.mem_cons_self _ _)
    have hce : check_entry r1 k v = check_entry r2 k v := by
      unfold check_entry
      rw [hk]
    rw [rtc_cons, rtc_cons, hce]
    cases check_entry r2 k v with
    | error e => rfl
    | ok b =>
      cases b with
      | true => rfl
      | false => exact ih (fun q hq => h q (List.mem_cons_of_mem _ hq))


/-- Claim C1: for every report and spec accepted without error (the run
returns `ok d`), the decision is the HOLD token `"False"` exactly when some
spec entry fires the source's comparison (name in the checked list and final
observation above the threshold), and the DEPLOY token `"deploy"` exactly
when no entry does. -/
theorem C1_hold_iff_violation (r : MetricReport) (s : ThresholdSpec)
    (d : String) (h : eval_metrics r s = .ok d) :
    (d = "False" ↔ ∃ p ∈ s, entryViolates r p.1 p.2 = true) ∧
    (d = "deploy" ↔ ¬ ∃ p ∈ s, entryViolates r p.1 p.2 = true) := by
  have h1 := rtc_false_iff r s d h
  have h2 := rtc_tokens r s d h
  refine ⟨h1, ?_, ?_⟩
  · intro hd hex
    have hf : d = "False" := h1.mpr hex
    rw [hd] at hf
    exact absurd hf (by decide)
  · intro hnex
    rcases h2 with h2 | h2
    · exact h2
    · exact absurd (h1.mp h2) hnex

/-- Witness for C1 at a concrete violating report. -/
theorem C1_witness :
    eval_metrics [("mae", [PyVal.num 50])] [("mae", PyVal.num 10)] =
      .ok "False" ∧
    (("False" = "False" ↔
        ∃ p ∈ ([("mae", PyVal.num 10)] : ThresholdSpec),
          entryViolates [("mae", [PyVal.num 50])] p.1 p.2 = true) ∧
     ("False" = "deploy" ↔
        ¬ ∃ p ∈ ([("mae", PyVal.num 10)] : ThresholdSpec),
          entryViolates [("mae", [PyVal.num 50])] p.1 p.2 = true)) :=
  ⟨rfl, C1_hold_iff_violation _ _ _ rfl⟩

/-- Claim C9: evaluation is a pure deterministic function of the two
deserialized documents; identical inputs give identical results. -/
theorem C9_deterministic (r1 : MetricReport) (s1 : ThresholdSpec)
    (r2 : MetricReport) (s2 : ThresholdSpec)
    (hr : r1 = r2) (hs : s1 = s2) :
    eval_metrics r1 s1 = eval_metrics r2 s2 := by
  subst hr
  subst hs
  rfl

/-- Witness for C9 at a concrete input pair. -/
theorem C9_witness :
    ([("mae", [PyVal.num 5])] : MetricReport) = [("mae", [PyVal.num 5])] ∧
    ([("mae", PyVal.num 10)] : ThresholdSpec) = [("mae", PyVal.num 10)] ∧
    eval_metrics [("mae", [PyVal.num 5])] [("mae", PyVal.num 10)] =
      eval_metrics [("mae", [PyVal.num 5])] [("mae", PyVal.num 10)] :=
  ⟨rfl, rfl, C9_deterministic _ _ _ _ rfl rfl⟩

/-- Claim C10: two reports that agree (as lookups) on every metric named in
the spec produce the same decision or error, whatever the other metrics
hold. -/
theorem C10_unnamed_metrics_irrelevant (s : ThresholdSpec)
    (r1 r2 : MetricReport)
    (h : ∀ p ∈ s, List.lookup p.1 r1 = List.lookup p.1 r2) :
    eval_metrics r1 s = eval_metrics r2 s :=
  rtc_agree r1 r2 s h

/-- Witness for C10: adding an unnamed metric does not change the
decision. -/
theorem C10_witness :
    (∀ p ∈ ([("mae", PyVal.num 10)] : ThresholdSpec),
        List.lookup p.1 ([("mae", [PyVal.num 5])] : MetricReport) =
        List.lookup p.1
          ([("extra", [PyVal.num 999]), ("mae", [PyVal.num 5])] :
            MetricReport)) ∧
    eval_metrics [("mae", [PyVal.num 5])] [("mae", PyVal.num 10)] =
      eval_metrics [("extra", [PyVal.num 999]), ("mae", [PyVal.num 5])]
        [("mae", PyVal.num 10)] := by
  have hyp : ∀ p ∈ ([("mae", PyVal.num 10)] : ThresholdSpec),
      List.lookup p.1 ([("mae", [PyVal.num 5])] : MetricReport) =
      List.lookup p.1
        ([("extra", [PyVal.num 999]), ("mae", [PyVal.num 5])] :
          MetricReport) := by
    intro p hp
    simp only [List.mem_singleton] at hp
    subst hp
    rfl
  exact ⟨hyp, C10_unnamed_metrics_irrelevant _ _ _ hyp⟩

/-- Claim C7: every successful evaluation returns exactly the token
`"deploy"` or the token `"False"`, and the only failure kinds are the
malformed-input errors of `PyErr` (missing checked metric, empty
observations, mixed-type comparison). -/
theorem C7_output_tokens (r : MetricReport) (s : ThresholdSpec) (d : String)
    (h : eval_metrics r s = .ok d) :
    (d = "deploy" ∨ d = "False") ∧
    (∀ e : PyErr,
      (∃ n, e = .keyError n) ∨ e = .indexError ∨ e = .typeError) := by
  refine ⟨rtc_tokens r s d h, ?_⟩
  intro e
  cases e with
  | keyError n => exact Or.inl ⟨n, rfl⟩
  | indexError => exact Or.inr (Or.inl rfl)
  | typeError => exact Or.inr (Or.inr rfl)

/-- Witness for C7 at the empty documents. -/
theorem C7_witness :
    eval_metrics [] [] = .ok "deploy" ∧
    (("deploy" = "deploy" ∨ "deploy" = "False") ∧
     (∀ e : PyErr,
       (∃ n, e = PyErr.keyError n) ∨ e = PyErr.indexError ∨
         e = PyErr.typeError)) :=
  ⟨rfl, C7_output_tokens [] [] "deploy" rfl⟩

/-- Claim C6: the gate reads only the last observation of each metric
(replacing every observation list by its last element preserves the result),
and on report rmse = [3000, 2500, 1800] with threshold 2000 the decision is
DEPLOY even though earlier observations exceed the threshold. -/
theorem C6_compares_last_observation :
    (∀ (r : MetricReport) (s : ThresholdSpec),
      eval_metrics r s = eval_metrics (reportLastOnly r) s) ∧
    eval_metrics
      [("root_mean_squared_error",
        [PyVal.num 3000, PyVal.num 2500, PyVal.num 1800])]
      [("root_mean_squared_error", PyVal.num 2000)] = .ok "deploy" :=
  ⟨fun r s => (rtc_lastOnly r s).symm, rfl⟩


/-- In any report where a checked metric has a numeric final observation, a
single-entry spec on that metric with a numeric threshold holds back
deployment exactly when final > threshold. -/
lemma eval_single_checked_generic (r : MetricReport) (k : String)
    (obs : List PyVal) (q t : ℚ)
    (hk : checkedMetrics.contains k = true)
    (hl : List.lookup k r = some obs)
    (ho : obs.getLast? = some (PyVal.num q)) :
    eval_metrics r [(k, PyVal.num t)] =
      .ok (if t < q then "False" else "deploy") := by
  have hce : check_entry r k (PyVal.num t) = .ok (decide (t < q)) := by
    have hkm : k ∈ checkedMetrics := by simpa using hk
    unfold check_entry
    rw [hl]
    simp [hkm, ho, pyGT]
  unfold eval_metrics
  rw [rtc_cons, hce]
  by_cases hlt : t < q
  · simp [hlt]
  · simp [hlt, regression_threshold_check]

/-- A single checked metric with a numeric final value and numeric threshold
holds back deployment exactly when final > threshold. -/
lemma eval_single_checked_num (k : String)
    (hk : checkedMetrics.contains k = true) (q t : ℚ) :
    eval_metrics [(k, [PyVal.num q])] [(k, PyVal.num t)] =
      .ok (if t < q then "False" else "deploy") := by
  have hl : List.lookup k ([(k, [PyVal.num q])] : MetricReport) =
      some [PyVal.num q] := by
    simp [List.lookup]
  exact eval_single_checked_generic [(k, [PyVal.num q])] k [PyVal.num q]
    q t hk hl rfl

/-- Claim C2 is false on the code: a report whose "accuracy" final value is
below its threshold yields DEPLOY, not HOLD, and the names "mse" and "loss"
are not in the code's checked set (their violations also yield DEPLOY). -/
theorem C2_counterexample :
    eval_metrics [("accuracy", [PyVal.num (1/2)])]
      [("accuracy", PyVal.num (9/10))] = .ok "deploy" ∧
    eval_metrics [("mse", [PyVal.num 5])] [("mse", PyVal.num 1)] =
      .ok "deploy" ∧
    eval_metrics [("loss", [PyVal.num 5])] [("loss", PyVal.num 1)] =
      .ok "deploy" ∧
    (Except.ok "deploy" : Except PyErr String) ≠ .ok "False" := by
  refine ⟨rfl, rfl, rfl, ?_⟩
  intro h
  exact absurd (Except.ok.inj h) (by decide)

/-- Claim C2 amended: the evaluator has no direction handling at all.  It
applies final > threshold (LOWER_IS_BETTER) only to names in
`["root_mean_squared_error", "mae"]`; every other metric name is ignored
(entries with other names can be dropped from any spec without changing the
result), so an "accuracy" below its threshold still gives DEPLOY.  For a
checked name the rule holds in any report whose final observation for that
name is numeric: the single-entry decision is HOLD exactly when
final > threshold. -/
theorem C2_amended_direction_policy :
    (∀ (r : MetricReport) (s : ThresholdSpec),
      eval_metrics r s =
        eval_metrics r (s.filter (fun p => checkedMetrics.contains p.1))) ∧
    (∀ (r : MetricReport) (k : String) (obs : List PyVal) (q t : ℚ),
      checkedMetrics.contains k = true →
      List.lookup k r = some obs →
      obs.getLast? = some (PyVal.num q) →
      eval_metrics r [(k, PyVal.num t)] =
        .ok (if t < q then "False" else "deploy")) ∧
    (∀ q t : ℚ,
      eval_metrics [("mae", [PyVal.num q])] [("mae", PyVal.num t)] =
        .ok (if t < q then "False" else "deploy")) ∧
    (∀ q t : ℚ,
      eval_metrics [("root_mean_squared_error", [PyVal.num q])]
        [("root_mean_squared_error", PyVal.num t)] =
        .ok (if t < q then "False" else "deploy")) ∧
    eval_metrics [("accuracy", [PyVal.num (1/2)])]
      [("accuracy", PyVal.num (9/10))] = .ok "deploy" :=
  ⟨fun r s => rtc_filter_checked r s,
   fun r k obs q t hk hl ho =>
     eval_single_checked_generic r k obs q t hk hl ho,
   fun q t => eval_single_checked_num "mae" rfl q t,
   fun q t => eval_single_checked_num "root_mean_squared_error" rfl q t,
   rfl⟩

/-- Witness for the amended C2: in a two-metric report the checked metric
"mae" with final observation 40 and threshold 30 yields HOLD, through the
generic lower-is-better conjunct. -/
theorem C2_amended_witness :
    checkedMetrics.contains "mae" = true ∧
    List.lookup "mae"
      ([("accuracy", [PyVal.num 1]),
        ("mae", [PyVal.num 50, PyVal.num 40])] : MetricReport) =
      some [PyVal.num 50, PyVal.num 40] ∧
    ([PyVal.num 50, PyVal.num 40] : List PyVal).getLast? =
      some (PyVal.num 40) ∧
    eval_metrics
      [("accuracy", [PyVal.num 1]), ("mae", [PyVal.num 50, PyVal.num 40])]
      [("mae", PyVal.num 30)] =
      .ok (if (30 : ℚ) < 40 then "False" else "deploy") :=
  ⟨rfl, rfl, rfl,
   C2_amended_direction_policy.2.1
     [("accuracy", [PyVal.num 1]), ("mae", [PyVal.num 50, PyVal.num 40])]
     "mae" [PyVal.num 50, PyVal.num 40] 40 30 rfl rfl rfl⟩

/-- Claim C3: when every entry before the first violating entry passes, the
evaluation returns the HOLD token at that entry and the result does not
depend on any later entry (the tail `l2`, which may contain further
violations, can be replaced by the empty tail). -/
theorem C3_short_circuit (r : MetricReport) (l1 : ThresholdSpec)
    (k : String) (v : PyVal) (l2 : ThresholdSpec)
    (h1 : regression_threshold_check r l1 = .ok "deploy")
    (h2 : entryViolates r k v = true) :
    eval_metrics r (l1 ++ (k, v) :: l2) = .ok "False" ∧
    eval_metrics r (l1 ++ (k, v) :: l2) = eval_metrics r (l1 ++ [(k, v)]) := by
  have hc := (entryViolates_iff r k v).mp h2
  have e1 : eval_metrics r (l1 ++ (k, v) :: l2) = .ok "False" := by
    unfold eval_metrics
    rw [rtc_append_deploy r l1 ((k, v) :: l2) h1, rtc_cons, hc]
  have e2 : eval_metrics r (l1 ++ [(k, v)]) = .ok "False" := by
    unfold eval_metrics
    rw [rtc_append_deploy r l1 [(k, v)] h1, rtc_cons, hc]
  exact ⟨e1, e1.trans e2.symm⟩

/-- Witness for C3 with two violating metrics: only the first matters. -/
theorem C3_witness :
    regression_threshold_check
      [("accuracy", [PyVal.num 1]), ("mae", [PyVal.num 50]),
       ("root_mean_squared_error", [PyVal.num 30])]
      [("accuracy", PyVal.num 1)] = .ok "deploy" ∧
    entryViolates
      [("accuracy", [PyVal.num 1]), ("mae", [PyVal.num 50]),
       ("root_mean_squared_error", [PyVal.num 30])]
      "mae" (PyVal.num 10) = true ∧
    (eval_metrics
      [("accuracy", [PyVal.num 1]), ("mae", [PyVal.num 50]),
       ("root_mean_squared_error", [PyVal.num 30])]
      ([("accuracy", PyVal.num 1)] ++ ("mae", PyVal.num 10) ::
        [("root_mean_squared_error", PyVal.num 1)]) = .ok "False" ∧
     eval_metrics
      [("accuracy", [PyVal.num 1]), ("mae", [PyVal.num 50]),
       ("root_mean_squared_error", [PyVal.num 30])]
      ([("accuracy", PyVal.num 1)] ++ ("mae", PyVal.num 10) ::
        [("root_mean_squared_error", PyVal.num 1)]) =
     eval_metrics
      [("accuracy", [PyVal.num 1]), ("mae", [PyVal.num 50]),
       ("root_mean_squared_error", [PyVal.num 30])]
      ([("accuracy", PyVal.num 1)] ++ [("mae", PyVal.num 10)])) :=
  ⟨rfl, rfl, C3_short_circuit _ _ _ _ _ rfl rfl⟩

/-- Claim C4 is false on the code: report has only "mae", spec thresholds
"rmse", and the evaluation silently returns DEPLOY instead of failing with a
missing-metric error, because "rmse" is not in the code's checked list. -/
theorem C4_counterexample :
    eval_metrics [("mae", [PyVal.num 50, PyVal.num 40])]
      [("rmse", PyVal.num 10)] = .ok "deploy" := rfl

/-- Claim C4 amended: only a spec entry whose name is in the checked list
`["root_mean_squared_error", "mae"]` and is absent from the report makes
evaluation fail (Python `KeyError`) when it is reached; entries with any
other absent name are silently skipped, and in particular the report
`mae = [50, 40]` with spec `rmse: 10` yields DEPLOY. -/
theorem C4_amended_missing_metric (r : MetricReport) (l1 : ThresholdSpec)
    (k : String) (v : PyVal) (l2 : ThresholdSpec)
    (h1 : regression_threshold_check r l1 = .ok "deploy")
    (h2 : checkedMetrics.contains k = true)
    (h3 : List.lookup k r = none) :
    eval_metrics r (l1 ++ (k, v) :: l2) = .error (.keyError k) ∧
    eval_metrics [("mae", [PyVal.num 50, PyVal.num 40])]
      [("rmse", PyVal.num 10)] = .ok "deploy" := by
  refine ⟨?_, rfl⟩
  have hce : check_entry r k v = .error (.keyError k) := by
    have h2m : k ∈ checkedMetrics := by simpa using h2
    unfold check_entry
    rw [h3]
    simp [h2m]
  unfold eval_metrics
  rw [rtc_append_deploy r l1 ((k, v) :: l2) h1, rtc_cons, hce]

/-- Witness for the amended C4 at a concrete missing checked metric. -/
theorem C4_amended_witness :
    regression_threshold_check ([] : MetricReport) [] = .ok "deploy" ∧
    checkedMetrics.contains "mae" = true ∧
    List.lookup "mae" ([] : MetricReport) = none ∧
    (eval_metrics ([] : MetricReport) ([] ++ ("mae", PyVal.num 10) :: []) =
        .error (.keyError "mae") ∧
     eval_metrics [("mae", [PyVal.num 50, PyVal.num 40])]
        [("rmse", PyVal.num 10)] = .ok "deploy") :=
  ⟨rfl, rfl, rfl, C4_amended_missing_metric _ _ _ _ _ rfl rfl rfl⟩

/-- Claim C5 is false on the code: the report `rmse = []` with spec
`rmse: 10` returns DEPLOY instead of failing with an empty-observations
error, because "rmse" is not in the code's checked list. -/
theorem C5_counterexample :
    eval_metrics [("rmse", ([] : List PyVal))] [("rmse", PyVal.num 10)] =
      .ok "deploy" := rfl

/-- Claim C5 amended: a present-but-empty observation list makes evaluation
fail (Python `IndexError` from `[-1]`) only when the metric name is in the
checked list and the entry is reached; for any other name the entry is
skipped, and in particular `rmse = []` with spec `rmse: 10` yields
DEPLOY. -/
theorem C5_amended_empty_observations (r : MetricReport)
    (l1 : ThresholdSpec) (k : String) (v : PyVal) (l2 : ThresholdSpec)
    (h1 : regression_threshold_check r l1 = .ok "deploy")
    (h2 : checkedMetrics.contains k = true)
    (h3 : List.lookup k r = some ([] : List PyVal)) :
    eval_metrics r (l1 ++ (k, v) :: l2) = .error .indexError ∧
    eval_metrics [("rmse", ([] : List PyVal))] [("rmse", PyVal.num 10)] =
      .ok "deploy" := by
  refine ⟨?_, rfl⟩
  have hce : check_entry r k v = .error .indexError := by
    have h2m : k ∈ checkedMetrics := by simpa using h2
    unfold check_entry
    rw [h3]
    simp [h2m]
  unfold eval_metrics
  rw [rtc_append_deploy r l1 ((k, v) :: l2) h1, rtc_cons, hce]

/-- Witness for the amended C5 at a concrete empty checked metric. -/
theorem C5_amended_witness :
    regression_threshold_check [("mae", ([] : List PyVal))] [] =
      .ok "deploy" ∧
    checkedMetrics.contains "mae" = true ∧
    List.lookup "mae" [("mae", ([] : List PyVal))] =
      some ([] : List PyVal) ∧
    (eval_metrics [("mae", ([] : List PyVal))]
        ([] ++ ("mae", PyVal.num 10) :: []) = .error .indexError ∧
     eval_metrics [("rmse", ([] : List PyVal))] [("rmse", PyVal.num 10)] =
       .ok "deploy") :=
  ⟨rfl, rfl, rfl, C5_amended_empty_observations _ _ _ _ _ rfl rfl rfl⟩

/-- Claim C8 is false on the code: a non-numeric threshold on an unchecked
name ("accuracy") is never compared and the run returns DEPLOY, and a
non-numeric threshold on a checked name after an earlier violation is never
reached and the run returns HOLD; neither run fails. -/
theorem C8_counterexample :
    eval_metrics [("accuracy", [PyVal.num 1])]
      [("accuracy", PyVal.str "high")] = .ok "deploy" ∧
    eval_metrics [("mae", [PyVal.num 50])]
      [("mae", PyVal.num 10), ("root_mean_squared_error", PyVal.str "x")] =
      .ok "False" := ⟨rfl, rfl⟩

/-- Claim C8 amended: a non-numeric (string) threshold is fatal (Python
`TypeError` from `>` on a number and a string) exactly when its metric name
is in the checked list, the metric's final observation is numeric, and the
entry is reached with every earlier entry passing. -/
theorem C8_amended_nonnumeric_threshold (r : MetricReport)
    (l1 : ThresholdSpec) (k : String) (t : String) (l2 : ThresholdSpec)
    (obs : List PyVal) (q : ℚ)
    (h1 : regression_threshold_check r l1 = .ok "deploy")
    (h2 : checkedMetrics.contains k = true)
    (h3 : List.lookup k r = some obs)
    (h4 : obs.getLast? = some (PyVal.num q)) :
    eval_metrics r (l1 ++ (k, PyVal.str t) :: l2) = .error .typeError := by
  have hce : check_entry r k (PyVal.str t) = .error .typeError := by
    have h2m : k ∈ checkedMetrics := by simpa using h2
    unfold check_entry
    rw [h3]
    simp [h2m, h4, pyGT]
  unfold eval_metrics
  rw [rtc_append_deploy r l1 ((k, PyVal.str t) :: l2) h1, rtc_cons, hce]

/-- Witness for the amended C8 at a concrete string threshold. -/
theorem C8_amended_witness :
    regression_threshold_check [("mae", [PyVal.num 5])] [] = .ok "deploy" ∧
    checkedMetrics.contains "mae" = true ∧
    List.lookup "mae" ([("mae", [PyVal.num 5])] : MetricReport) =
      some [PyVal.num 5] ∧
    ([PyVal.num 5] : List PyVal).getLast? = some (PyVal.num 5) ∧
    eval_metrics [("mae", [PyVal.num 5])]
      ([] ++ ("mae", PyVal.str "high") :: []) = .error .typeError :=
  ⟨rfl, rfl, rfl, rfl,
   C8_amended_nonnumeric_threshold _ _ _ _ _ _ _ rfl rfl rfl rfl⟩

end AutomlTablesXai
